import Mathlib

/-!
Shallow embedding of the data.task library (lib/task.js).

A JavaScript `Task` wraps a `fork` procedure taking a failure continuation and
a success continuation and returning an opaque run-state, plus a `cleanup`
procedure over that run-state.  The embedding records, for one execution of a
task's `fork`:

* `calls`   — the sequence of continuation invocations the fork performs,
* `crashes` — whether the fork throws an exception after performing those
              invocations (used to model the `ReferenceError` raised by the
              undefined identifier `par2` in `map3`..`map10`),
* `state`   — the run-state the fork returns,
* `cleanup` — the cleanup procedure, kept opaque.

The stateful guard logic inside `ap` and `concat` (the `rejected` and `done`
latches held in the closure of each fork invocation) is embedded as explicit
state machines (`apStep`, `concatStep`) processing an arbitrary trace of
continuation events, so every settlement interleaving — not only the
synchronous left-then-right order — is covered.  The output event
`Out.schedCleanup` records a call to
`delayed(function(){ cleanupBoth(allState) })`.
-/

set_option autoImplicit false

namespace DataTask

/-- One continuation invocation performed by a fork: a call to the failure
continuation (`rej`, the source's `reject`) or to the success continuation
(`res`, the source's `resolve`). -/
inductive SettleEv (E V : Type) where
  | rej (e : E)
  | res (v : V)
  deriving DecidableEq

/-- The `Task(computation, cleanup)` value of lib/task.js, described by the
observable behaviour of one execution of its `fork`. -/
structure Task (E V R C : Type) where
  calls : List (SettleEv E V)
  crashes : Bool
  state : R
  cleanup : C

variable {E E' V S G R C : Type}

/-- `Task.of(b)`: fork immediately invokes `resolve(b)`; default no-op cleanup. -/
def Task.of (b : V) : Task E V Unit Unit :=
  { calls := [SettleEv.res b], crashes := false, state := (), cleanup := () }

/-- `Task.rejected(a)`: fork immediately invokes `reject(a)`. -/
def Task.rejected (a : E) : Task E V Unit Unit :=
  { calls := [SettleEv.rej a], crashes := false, state := (), cleanup := () }

/-- `Task.empty()`: fork invokes neither continuation. -/
def Task.empty : Task E V Unit Unit :=
  { calls := [], crashes := false, state := (), cleanup := () }

/-- `map(f)`: the wrapped fork forwards `reject(a)` unchanged and turns
`resolve(b)` into `resolve(f(b))`; the run-state and cleanup are the
underlying task's own. -/
def Task.map (t : Task E V R C) (f : V → S) : Task E S R C :=
  { calls := t.calls.map fun ev =>
      match ev with
      | SettleEv.rej a => SettleEv.rej a
      | SettleEv.res b => SettleEv.res (f b)
    crashes := t.crashes
    state := t.state
    cleanup := t.cleanup }

/-- The continuation calls performed by `chain`'s composed fork: rejections of
the outer task pass through; a success `b` runs `f(b).fork(reject, resolve)`
inline, and if that inner fork throws, the rest of the outer fork's behaviour
is cut off (the exception propagates).  The boolean records whether an inner
fork threw. -/
def chainCalls {R' C' : Type} (f : V → Task E S R' C') :
    List (SettleEv E V) → List (SettleEv E S) × Bool
  | [] => ([], false)
  | SettleEv.rej a :: rest =>
      let p := chainCalls f rest
      (SettleEv.rej a :: p.1, p.2)
  | SettleEv.res b :: rest =>
      if (f b).crashes then ((f b).calls, true)
      else
        let p := chainCalls f rest
        ((f b).calls ++ p.1, p.2)

/-- `chain(f)`: full delegation to `f(b)` on success; the new task keeps the
underlying task's run-state and cleanup. -/
def Task.chain {R' C' : Type} (t : Task E V R C) (f : V → Task E S R' C') :
    Task E S R C :=
  { calls := (chainCalls f t.calls).1
    crashes := (chainCalls f t.calls).2 || t.crashes
    state := t.state
    cleanup := t.cleanup }

/-- The continuation calls performed by `orElse`'s composed fork: successes
pass through; a failure `a` runs `f(a).fork(reject, resolve)` inline, with the
same exception cut-off as `chain`. -/
def orElseCalls {R' C' : Type} (f : E → Task E' V R' C') :
    List (SettleEv E V) → List (SettleEv E' V) × Bool
  | [] => ([], false)
  | SettleEv.res b :: rest =>
      let p := orElseCalls f rest
      (SettleEv.res b :: p.1, p.2)
  | SettleEv.rej a :: rest =>
      if (f a).crashes then ((f a).calls, true)
      else
        let p := orElseCalls f rest
        ((f a).calls ++ p.1, p.2)

/-- `orElse(f)`: recovery on the failure channel, delegation like `chain`. -/
def Task.orElse {R' C' : Type} (t : Task E V R C) (f : E → Task E' V R' C') :
    Task E' V R C :=
  { calls := (orElseCalls f t.calls).1
    crashes := (orElseCalls f t.calls).2 || t.crashes
    state := t.state
    cleanup := t.cleanup }

/-- `fold(f, g)`: both channels are funnelled into `resolve`; the resulting
task's failure channel (of arbitrary type `D`) is never invoked. -/
def Task.fold {D : Type} (t : Task E V R C) (f : E → G) (g : V → G) :
    Task D G R C :=
  { calls := t.calls.map fun ev =>
      match ev with
      | SettleEv.rej a => SettleEv.res (f a)
      | SettleEv.res b => SettleEv.res (g b)
    crashes := t.crashes
    state := t.state
    cleanup := t.cleanup }

/-- The labelled-argument record taken by `cata`. -/
structure CataPattern (E V G : Type) where
  Rejected : E → G
  Resolved : V → G

/-- `cata(pattern)`: `fold` with the pattern's two fields. -/
def Task.cata {D : Type} (t : Task E V R C) (p : CataPattern E V G) :
    Task D G R C :=
  t.fold p.Rejected p.Resolved

/-- `swap()`: exchanges the two channels without transforming values. -/
def Task.swap (t : Task E V R C) : Task V E R C :=
  { calls := t.calls.map fun ev =>
      match ev with
      | SettleEv.rej a => SettleEv.res a
      | SettleEv.res b => SettleEv.rej b
    crashes := t.crashes
    state := t.state
    cleanup := t.cleanup }

/-- `bimap(f, g)`: transforms both channels. -/
def Task.bimap (t : Task E V R C) (f : E → E') (g : V → S) : Task E' S R C :=
  { calls := t.calls.map fun ev =>
      match ev with
      | SettleEv.rej a => SettleEv.rej (f a)
      | SettleEv.res b => SettleEv.res (g b)
    crashes := t.crashes
    state := t.state
    cleanup := t.cleanup }

/-- `rejectedMap(f)`: transforms only the failure channel. -/
def Task.rejectedMap (t : Task E V R C) (f : E → E') : Task E' V R C :=
  { calls := t.calls.map fun ev =>
      match ev with
      | SettleEv.rej a => SettleEv.rej (f a)
      | SettleEv.res b => SettleEv.res b
    crashes := t.crashes
    state := t.state
    cleanup := t.cleanup }

/-! ### The `ap` combinator's guard machine

`ap`'s composed fork holds, per invocation, the closure variables
`func`/`funcLoaded`, `val`/`valLoaded` and the failure latch `rejected`.
`funcLoaded` and `func` are merged into one `Option`, likewise `val`. -/

/-- The closure-local mutable state of one invocation of `ap`'s fork. -/
structure ApSt (E V S : Type) where
  func : Option (V → S)
  val : Option V
  rejected : Bool

/-- Initial closure state: nothing loaded, not rejected. -/
def apInit {E V S : Type} : ApSt E V S :=
  { func := none, val := none, rejected := false }

/-- A continuation event arriving at `ap`'s guards: a settlement of `this`
(the function-carrying side) or of `that` (the value-carrying side). -/
inductive ApEv (E V S : Type) where
  | rejThis (e : E)
  | resThis (f : V → S)
  | rejThat (e : E)
  | resThat (v : V)

/-- An observable action of a composed fork: a call to the output `reject`,
a call to the output `resolve`, or scheduling `cleanupBoth` via `delayed`. -/
inductive Out (E S : Type) where
  | reject (e : E)
  | resolve (s : S)
  | schedCleanup
  deriving DecidableEq

/-- One step of `ap`'s guards (`guardReject` / `guardResolve`): returns the
updated closure state and the actions performed.  `guardReject` fires the
output `reject` only when the `rejected` latch is unset, and sets it.
`guardResolve` is a no-op when `rejected` is set; otherwise it stores the
incoming value and, if both sides are now loaded, schedules `cleanupBoth` and
fires `resolve(func(val))`. -/
def apStep {E V S : Type} (st : ApSt E V S) : ApEv E V S → ApSt E V S × List (Out E S)
  | ApEv.rejThis e =>
      if st.rejected then (st, [])
      else ({ st with rejected := true }, [Out.reject e])
  | ApEv.rejThat e =>
      if st.rejected then (st, [])
      else ({ st with rejected := true }, [Out.reject e])
  | ApEv.resThis f =>
      if st.rejected then (st, [])
      else
        match st.val with
        | some v => ({ st with func := some f }, [Out.schedCleanup, Out.resolve (f v)])
        | none => ({ st with func := some f }, [])
  | ApEv.resThat v =>
      if st.rejected then (st, [])
      else
        match st.func with
        | some f => ({ st with val := some v }, [Out.schedCleanup, Out.resolve (f v)])
        | none => ({ st with val := some v }, [])

/-- Run `ap`'s guards over a trace of incoming events from a given state,
collecting the actions performed. -/
def apRunFrom {E V S : Type} (st : ApSt E V S) : List (ApEv E V S) → List (Out E S)
  | [] => []
  | ev :: rest => (apStep st ev).2 ++ apRunFrom (apStep st ev).1 rest

/-- The closure state after `ap`'s guards process a trace. -/
def apFinal {E V S : Type} (st : ApSt E V S) : List (ApEv E V S) → ApSt E V S
  | [] => st
  | ev :: rest => apFinal (apStep st ev).1 rest

/-- Run `ap`'s guards over a trace from the initial closure state. -/
def apRun {E V S : Type} (tr : List (ApEv E V S)) : List (Out E S) :=
  apRunFrom apInit tr

/-- Keep only the settlements (reject/resolve calls) of an action list,
dropping cleanup scheduling. -/
def settlementsOf {E S : Type} : List (Out E S) → List (SettleEv E S)
  | [] => []
  | Out.reject e :: rest => SettleEv.rej e :: settlementsOf rest
  | Out.resolve s :: rest => SettleEv.res s :: settlementsOf rest
  | Out.schedCleanup :: rest => settlementsOf rest

/-- Number of `delayed(cleanupBoth)` scheduling actions in an action list. -/
def countSched {E S : Type} : List (Out E S) → Nat
  | [] => 0
  | Out.schedCleanup :: rest => countSched rest + 1
  | Out.reject _ :: rest => countSched rest
  | Out.resolve _ :: rest => countSched rest

/-- Number of output `reject` calls in an action list. -/
def countRejects {E S : Type} : List (Out E S) → Nat
  | [] => 0
  | Out.reject _ :: rest => countRejects rest + 1
  | Out.resolve _ :: rest => countRejects rest
  | Out.schedCleanup :: rest => countRejects rest

/-- Tag a settlement of `this` as an `ap` guard event. -/
def tagThis {E V S : Type} : SettleEv E (V → S) → ApEv E V S
  | SettleEv.rej e => ApEv.rejThis e
  | SettleEv.res f => ApEv.resThis f

/-- Tag a settlement of `that` as an `ap` guard event. -/
def tagThat {E V S : Type} : SettleEv E V → ApEv E V S
  | SettleEv.rej e => ApEv.rejThat e
  | SettleEv.res v => ApEv.resThat v

/-- `ap(that)`: the composed fork runs `this.fork` and then `that.fork`
through the guards (if `this.fork` throws, `that` is never forked), returns
the pair of run-states, and carries `cleanupBoth`.  Both inputs' synchronous
continuation calls reach the guards in forking order. -/
def Task.ap {R2 C2 : Type} (tf : Task E (V → S) R C) (tv : Task E V R2 C2) :
    Task E S (R × R2) (C × C2) :=
  let evs :=
    if tf.crashes then tf.calls.map tagThis
    else tf.calls.map tagThis ++ tv.calls.map tagThat
  { calls := settlementsOf (apRun evs)
    crashes := tf.crashes || tv.crashes
    state := (tf.state, tv.state)
    cleanup := (tf.cleanup, tv.cleanup) }

/-! ### The `concat` combinator's guard machine

`concat`'s composed fork holds one closure variable, the `done` latch; the
same `guard` wraps all four continuations, so an incoming event's side is
irrelevant and only its channel and value matter. -/

/-- The output action `guard(f)` would forward for an incoming settlement. -/
def raceOut {E V : Type} : SettleEv E V → Out E V
  | SettleEv.rej e => Out.reject e
  | SettleEv.res v => Out.resolve v

/-- One step of `concat`'s `guard`: when `done` is unset it sets the latch,
schedules `cleanupBoth` via `delayed`, and forwards the settlement; otherwise
it does nothing. -/
def concatStep {E V : Type} (done : Bool) (ev : SettleEv E V) :
    Bool × List (Out E V) :=
  if done then (done, [])
  else (true, [Out.schedCleanup, raceOut ev])

/-- Run `concat`'s guard over a trace of incoming settlements from a given
latch state. -/
def concatRunFrom {E V : Type} (done : Bool) : List (SettleEv E V) → List (Out E V)
  | [] => []
  | ev :: rest => (concatStep done ev).2 ++ concatRunFrom (concatStep done ev).1 rest

/-- Run `concat`'s guard over a trace with the latch initially unset. -/
def concatRun {E V : Type} (tr : List (SettleEv E V)) : List (Out E V) :=
  concatRunFrom false tr

/-- `concat(that)`: the composed fork runs `this.fork` and then `that.fork`
through the shared guard (if `this.fork` throws, `that` is never forked),
returns the pair of run-states, and carries `cleanupBoth`. -/
def Task.concat {R2 C2 : Type} (ta : Task E V R C) (tb : Task E V R2 C2) :
    Task E V (R × R2) (C × C2) :=
  let evs := if ta.crashes then ta.calls else ta.calls ++ tb.calls
  { calls := settlementsOf (concatRun evs)
    crashes := ta.crashes || tb.crashes
    state := (ta.state, tb.state)
    cleanup := (ta.cleanup, tb.cleanup) }

/-! ### N-ary combinators `map2`..`map10`

`map2` curries its binary function with the local helper `par2` and composes
one wrapped fork with one `ap`.  `map3`..`map10` each define an arity-correct
curried helper (`par3`..`par10`) but their composed fork's success branch
instead evaluates the identifier `par2`, which is not defined in their scope:
in JavaScript this raises a `ReferenceError` before the success continuation
can be invoked, aborting the fork. -/

/-- The local curried helper `par2` of `map2`. -/
def par2 {A1 A2 : Type} (f : A1 → A2 → S) : A1 → A2 → S :=
  fun t1 => fun t2 => f t1 t2

/-- The local curried helper `par3` of `map3` (defined but never invoked by
`map3`'s fork). -/
def par3 {A1 A2 A3 : Type} (f : A1 → A2 → A3 → S) : A1 → A2 → A3 → S :=
  fun t1 => fun t2 => fun t3 => f t1 t2 t3

/-- The local curried helper `par4` of `map4` (defined but never invoked). -/
def par4 {A1 A2 A3 A4 : Type} (f : A1 → A2 → A3 → A4 → S) :
    A1 → A2 → A3 → A4 → S :=
  fun t1 => fun t2 => fun t3 => fun t4 => f t1 t2 t3 t4

/-- The local curried helper `par5` of `map5` (defined but never invoked). -/
def par5 {A1 A2 A3 A4 A5 : Type} (f : A1 → A2 → A3 → A4 → A5 → S) :
    A1 → A2 → A3 → A4 → A5 → S :=
  fun t1 => fun t2 => fun t3 => fun t4 => fun t5 => f t1 t2 t3 t4 t5

/-- The local curried helper `par6` of `map6` (defined but never invoked). -/
def par6 {A1 A2 A3 A4 A5 A6 : Type} (f : A1 → A2 → A3 → A4 → A5 → A6 → S) :
    A1 → A2 → A3 → A4 → A5 → A6 → S :=
  fun t1 => fun t2 => fun t3 => fun t4 => fun t5 => fun t6 => f t1 t2 t3 t4 t5 t6

/-- The local curried helper `par7` of `map7` (defined but never invoked). -/
def par7 {A1 A2 A3 A4 A5 A6 A7 : Type}
    (f : A1 → A2 → A3 → A4 → A5 → A6 → A7 → S) :
    A1 → A2 → A3 → A4 → A5 → A6 → A7 → S :=
  fun t1 => fun t2 => fun t3 => fun t4 => fun t5 => fun t6 => fun t7 =>
    f t1 t2 t3 t4 t5 t6 t7

/-- The local curried helper `par8` of `map8` (defined but never invoked). -/
def par8 {A1 A2 A3 A4 A5 A6 A7 A8 : Type}
    (f : A1 → A2 → A3 → A4 → A5 → A6 → A7 → A8 → S) :
    A1 → A2 → A3 → A4 → A5 → A6 → A7 → A8 → S :=
  fun t1 => fun t2 => fun t3 => fun t4 => fun t5 => fun t6 => fun t7 => fun t8 =>
    f t1 t2 t3 t4 t5 t6 t7 t8

/-- The local curried helper `par9` of `map9` (defined but never invoked). -/
def par9 {A1 A2 A3 A4 A5 A6 A7 A8 A9 : Type}
    (f : A1 → A2 → A3 → A4 → A5 → A6 → A7 → A8 → A9 → S) :
    A1 → A2 → A3 → A4 → A5 → A6 → A7 → A8 → A9 → S :=
  fun t1 => fun t2 => fun t3 => fun t4 => fun t5 => fun t6 => fun t7 => fun t8 =>
    fun t9 => f t1 t2 t3 t4 t5 t6 t7 t8 t9

/-- The local curried helper `par10` of `map10` (defined but never invoked). -/
def par10 {A1 A2 A3 A4 A5 A6 A7 A8 A9 A10 : Type}
    (f : A1 → A2 → A3 → A4 → A5 → A6 → A7 → A8 → A9 → A10 → S) :
    A1 → A2 → A3 → A4 → A5 → A6 → A7 → A8 → A9 → A10 → S :=
  fun t1 => fun t2 => fun t3 => fun t4 => fun t5 => fun t6 => fun t7 => fun t8 =>
    fun t9 => fun t10 => f t1 t2 t3 t4 t5 t6 t7 t8 t9 t10

/-- `map2(f, t2)`: the wrapped fork turns `resolve(b)` into
`resolve(par2(b))` with `par2` currying `f`, then one `ap` with `t2`. -/
def Task.map2 {A1 A2 R2 C2 : Type} (t1 : Task E A1 R C) (f : A1 → A2 → S)
    (t2 : Task E A2 R2 C2) : Task E S (R × R2) (C × C2) :=
  Task.ap
    { calls := t1.calls.map fun ev =>
        match ev with
        | SettleEv.rej a => SettleEv.rej a
        | SettleEv.res b => SettleEv.res (par2 f b)
      crashes := t1.crashes
      state := t1.state
      cleanup := t1.cleanup } t2

/-- The continuation calls of the wrapped fork shared by `map3`..`map10`:
rejections of `t1` pass through; on the first success the branch evaluates the
undefined identifier `par2`, raising a `ReferenceError` before `resolve` can
be invoked, which aborts the fork.  The boolean records that abort. -/
def undefRefCalls {A1 : Type} :
    List (SettleEv E A1) → List (SettleEv E S) × Bool
  | [] => ([], false)
  | SettleEv.rej a :: rest =>
      let p : List (SettleEv E S) × Bool := undefRefCalls rest
      (SettleEv.rej a :: p.1, p.2)
  | SettleEv.res _ :: _ => ([], true)

/-- `map3(f, t2, t3)`: defines `par3` but its fork's success branch references
the undefined `par2`; then `ap` with `t2` and `t3`. -/
def Task.map3 {A1 A2 A3 R2 C2 R3 C3 : Type} (t1 : Task E A1 R C)
    (_f : A1 → A2 → A3 → S) (t2 : Task E A2 R2 C2) (t3 : Task E A3 R3 C3) :
    Task E S ((R × R2) × R3) ((C × C2) × C3) :=
  Task.ap (Task.ap
    ({ calls := (undefRefCalls t1.calls).1
       crashes := (undefRefCalls (S := A2 → A3 → S) t1.calls).2 || t1.crashes
       state := t1.state
       cleanup := t1.cleanup } : Task E (A2 → A3 → S) R C) t2) t3

/-- `map4`: same undefined-`par2` success branch, then three `ap`s. -/
def Task.map4 {A1 A2 A3 A4 R2 C2 R3 C3 R4 C4 : Type} (t1 : Task E A1 R C)
    (_f : A1 → A2 → A3 → A4 → S) (t2 : Task E A2 R2 C2) (t3 : Task E A3 R3 C3)
    (t4 : Task E A4 R4 C4) :
    Task E S (((R × R2) × R3) × R4) (((C × C2) × C3) × C4) :=
  Task.ap (Task.ap (Task.ap
    ({ calls := (undefRefCalls t1.calls).1
       crashes := (undefRefCalls (S := A2 → A3 → A4 → S) t1.calls).2 || t1.crashes
       state := t1.state
       cleanup := t1.cleanup } : Task E (A2 → A3 → A4 → S) R C) t2) t3) t4

/-- `map5`: same undefined-`par2` success branch, then four `ap`s. -/
def Task.map5 {A1 A2 A3 A4 A5 R2 C2 R3 C3 R4 C4 R5 C5 : Type}
    (t1 : Task E A1 R C) (_f : A1 → A2 → A3 → A4 → A5 → S)
    (t2 : Task E A2 R2 C2) (t3 : Task E A3 R3 C3) (t4 : Task E A4 R4 C4)
    (t5 : Task E A5 R5 C5) :
    Task E S ((((R × R2) × R3) × R4) × R5) ((((C × C2) × C3) × C4) × C5) :=
  Task.ap (Task.ap (Task.ap (Task.ap
    ({ calls := (undefRefCalls t1.calls).1
       crashes := (undefRefCalls (S := A2 → A3 → A4 → A5 → S) t1.calls).2 || t1.crashes
       state := t1.state
       cleanup := t1.cleanup } : Task E (A2 → A3 → A4 → A5 → S) R C) t2) t3) t4) t5

/-- `map6`: same undefined-`par2` success branch, then five `ap`s. -/
def Task.map6 {A1 A2 A3 A4 A5 A6 R2 C2 R3 C3 R4 C4 R5 C5 R6 C6 : Type}
    (t1 : Task E A1 R C) (_f : A1 → A2 → A3 → A4 → A5 → A6 → S)
    (t2 : Task E A2 R2 C2) (t3 : Task E A3 R3 C3) (t4 : Task E A4 R4 C4)
    (t5 : Task E A5 R5 C5) (t6 : Task E A6 R6 C6) :
    Task E S (((((R × R2) × R3) × R4) × R5) × R6)
      (((((C × C2) × C3) × C4) × C5) × C6) :=
  Task.ap (Task.ap (Task.ap (Task.ap (Task.ap
    ({ calls := (undefRefCalls t1.calls).1
       crashes := (undefRefCalls (S := A2 → A3 → A4 → A5 → A6 → S) t1.calls).2 || t1.crashes
       state := t1.state
       cleanup := t1.cleanup } : Task E (A2 → A3 → A4 → A5 → A6 → S) R C)
    t2) t3) t4) t5) t6

/-- `map7`: same undefined-`par2` success branch, then six `ap`s. -/
def Task.map7 {A1 A2 A3 A4 A5 A6 A7 R2 C2 R3 C3 R4 C4 R5 C5 R6 C6 R7 C7 : Type}
    (t1 : Task E A1 R C) (_f : A1 → A2 → A3 → A4 → A5 → A6 → A7 → S)
    (t2 : Task E A2 R2 C2) (t3 : Task E A3 R3 C3) (t4 : Task E A4 R4 C4)
    (t5 : Task E A5 R5 C5) (t6 : Task E A6 R6 C6) (t7 : Task E A7 R7 C7) :
    Task E S ((((((R × R2) × R3) × R4) × R5) × R6) × R7)
      ((((((C × C2) × C3) × C4) × C5) × C6) × C7) :=
  Task.ap (Task.ap (Task.ap (Task.ap (Task.ap (Task.ap
    ({ calls := (undefRefCalls t1.calls).1
       crashes := (undefRefCalls (S := A2 → A3 → A4 → A5 → A6 → A7 → S) t1.calls).2 || t1.crashes
       state := t1.state
       cleanup := t1.cleanup } : Task E (A2 → A3 → A4 → A5 → A6 → A7 → S) R C)
    t2) t3) t4) t5) t6) t7

/-- `map8`: same undefined-`par2` success branch, then seven `ap`s. -/
def Task.map8 {A1 A2 A3 A4 A5 A6 A7 A8 R2 C2 R3 C3 R4 C4 R5 C5 R6 C6 R7 C7 R8 C8 : Type}
    (t1 : Task E A1 R C) (_f : A1 → A2 → A3 → A4 → A5 → A6 → A7 → A8 → S)
    (t2 : Task E A2 R2 C2) (t3 : Task E A3 R3 C3) (t4 : Task E A4 R4 C4)
    (t5 : Task E A5 R5 C5) (t6 : Task E A6 R6 C6) (t7 : Task E A7 R7 C7)
    (t8 : Task E A8 R8 C8) :
    Task E S (((((((R × R2) × R3) × R4) × R5) × R6) × R7) × R8)
      (((((((C × C2) × C3) × C4) × C5) × C6) × C7) × C8) :=
  Task.ap (Task.ap (Task.ap (Task.ap (Task.ap (Task.ap (Task.ap
    ({ calls := (undefRefCalls t1.calls).1
       crashes := (undefRefCalls (S := A2 → A3 → A4 → A5 → A6 → A7 → A8 → S) t1.calls).2 || t1.crashes
       state := t1.state
       cleanup := t1.cleanup } : Task E (A2 → A3 → A4 → A5 → A6 → A7 → A8 → S) R C)
    t2) t3) t4) t5) t6) t7) t8

/-- `map9`: same undefined-`par2` success branch, then eight `ap`s. -/
def Task.map9 {A1 A2 A3 A4 A5 A6 A7 A8 A9 R2 C2 R3 C3 R4 C4 R5 C5 R6 C6 R7 C7 R8 C8 R9 C9 : Type}
    (t1 : Task E A1 R C) (_f : A1 → A2 → A3 → A4 → A5 → A6 → A7 → A8 → A9 → S)
    (t2 : Task E A2 R2 C2) (t3 : Task E A3 R3 C3) (t4 : Task E A4 R4 C4)
    (t5 : Task E A5 R5 C5) (t6 : Task E A6 R6 C6) (t7 : Task E A7 R7 C7)
    (t8 : Task E A8 R8 C8) (t9 : Task E A9 R9 C9) :
    Task E S ((((((((R × R2) × R3) × R4) × R5) × R6) × R7) × R8) × R9)
      ((((((((C × C2) × C3) × C4) × C5) × C6) × C7) × C8) × C9) :=
  Task.ap (Task.ap (Task.ap (Task.ap (Task.ap (Task.ap (Task.ap (Task.ap
    ({ calls := (undefRefCalls t1.calls).1
       crashes := (undefRefCalls (S := A2 → A3 → A4 → A5 → A6 → A7 → A8 → A9 → S) t1.calls).2 || t1.crashes
       state := t1.state
       cleanup := t1.cleanup } : Task E (A2 → A3 → A4 → A5 → A6 → A7 → A8 → A9 → S) R C)
    t2) t3) t4) t5) t6) t7) t8) t9

/-- `map10`: same undefined-`par2` success branch, then nine `ap`s. -/
def Task.map10 {A1 A2 A3 A4 A5 A6 A7 A8 A9 A10 R2 C2 R3 C3 R4 C4 R5 C5 R6 C6 R7 C7 R8 C8 R9 C9 R10 C10 : Type}
    (t1 : Task E A1 R C)
    (_f : A1 → A2 → A3 → A4 → A5 → A6 → A7 → A8 → A9 → A10 → S)
    (t2 : Task E A2 R2 C2) (t3 : Task E A3 R3 C3) (t4 : Task E A4 R4 C4)
    (t5 : Task E A5 R5 C5) (t6 : Task E A6 R6 C6) (t7 : Task E A7 R7 C7)
    (t8 : Task E A8 R8 C8) (t9 : Task E A9 R9 C9) (t10 : Task E A10 R10 C10) :
    Task E S (((((((((R × R2) × R3) × R4) × R5) × R6) × R7) × R8) × R9) × R10)
      (((((((((C × C2) × C3) × C4) × C5) × C6) × C7) × C8) × C9) × C10) :=
  Task.ap (Task.ap (Task.ap (Task.ap (Task.ap (Task.ap (Task.ap (Task.ap (Task.ap
    ({ calls := (undefRefCalls t1.calls).1
       crashes := (undefRefCalls (S := A2 → A3 → A4 → A5 → A6 → A7 → A8 → A9 → A10 → S) t1.calls).2 || t1.crashes
       state := t1.state
       cleanup := t1.cleanup } : Task E (A2 → A3 → A4 → A5 → A6 → A7 → A8 → A9 → A10 → S) R C)
    t2) t3) t4) t5) t6) t7) t8) t9) t10

/-- Whether an `ap` guard event is a failure report (a call to `guardReject`). -/
def isRejEv {E V S : Type} : ApEv E V S → Bool
  | ApEv.rejThis _ => true
  | ApEv.rejThat _ => true
  | ApEv.resThis _ => false
  | ApEv.resThat _ => false

/-- An ill-behaved task whose fork first resolves with `41` and then also
rejects with `7`, violating the single-settlement expectation. -/
def illBehaved : Task Nat Nat Unit Unit :=
  { calls := [SettleEv.res 41, SettleEv.rej 7], crashes := false
    state := (), cleanup := () }

/-- A concrete `ap` trace whose first settlement is a failure. -/
def c7Trace : List (ApEv Nat Nat Nat) :=
  [ApEv.rejThat 7]

/-! ### Helper lemmas about the guard machines -/

theorem apStep_of_rejected {E V S : Type} (st : ApSt E V S)
    (h : st.rejected = true) (ev : ApEv E V S) : apStep st ev = (st, []) := by
  cases ev <;> simp [apStep, h]

theorem apRunFrom_of_rejected {E V S : Type} (st : ApSt E V S)
    (h : st.rejected = true) (tr : List (ApEv E V S)) : apRunFrom st tr = [] := by
  induction tr with
  | nil => rfl
  | cons ev rest ih => simp [apRunFrom, apStep_of_rejected st h ev, ih]

theorem apFinal_of_rejected {E V S : Type} (st : ApSt E V S)
    (h : st.rejected = true) (tr : List (ApEv E V S)) : apFinal st tr = st := by
  induction tr with
  | nil => rfl
  | cons ev rest ih => simp [apFinal, apStep_of_rejected st h ev, ih]

theorem apRunFrom_append {E V S : Type} (st : ApSt E V S)
    (a b : List (ApEv E V S)) :
    apRunFrom st (a ++ b) = apRunFrom st a ++ apRunFrom (apFinal st a) b := by
  induction a generalizing st with
  | nil => simp [apRunFrom, apFinal]
  | cons ev rest ih => simp [apRunFrom, apFinal, ih]

theorem apFinal_append {E V S : Type} (st : ApSt E V S)
    (a b : List (ApEv E V S)) :
    apFinal st (a ++ b) = apFinal (apFinal st a) b := by
  induction a generalizing st with
  | nil => simp [apFinal]
  | cons ev rest ih => simp [apFinal, ih]

theorem apStep_rejThis_rejected {E V S : Type} (st : ApSt E V S) (e : E) :
    ((apStep st (ApEv.rejThis e)).1).rejected = true := by
  cases h : st.rejected <;> simp [apStep, h]

theorem apStep_rejThat_rejected {E V S : Type} (st : ApSt E V S) (e : E) :
    ((apStep st (ApEv.rejThat e)).1).rejected = true := by
  cases h : st.rejected <;> simp [apStep, h]

theorem apStep_resThis_rejected {E V S : Type} (st : ApSt E V S) (f : V → S) :
    ((apStep st (ApEv.resThis f)).1).rejected = st.rejected := by
  cases h : st.rejected
  · cases hv : st.val <;> simp [apStep, h, hv]
  · simp [apStep, h]

theorem apStep_resThat_rejected {E V S : Type} (st : ApSt E V S) (v : V) :
    ((apStep st (ApEv.resThat v)).1).rejected = st.rejected := by
  cases h : st.rejected
  · cases hf : st.func <;> simp [apStep, h, hf]
  · simp [apStep, h]

theorem apFinal_rejected_of_noRej {E V S : Type} :
    ∀ (tr : List (ApEv E V S)) (st : ApSt E V S),
      tr.all (fun ev => !isRejEv ev) = true →
      (apFinal st tr).rejected = st.rejected := by
  intro tr
  induction tr with
  | nil => intro st _; rfl
  | cons ev rest ih =>
    intro st h
    rw [List.all_cons, Bool.and_eq_true] at h
    cases ev with
    | rejThis e => simp [isRejEv] at h
    | rejThat e => simp [isRejEv] at h
    | resThis f =>
      rw [apFinal, ih _ h.2, apStep_resThis_rejected]
    | resThat v =>
      rw [apFinal, ih _ h.2, apStep_resThat_rejected]

theorem apRunFrom_rej_absorbs {E V S : Type} (st : ApSt E V S)
    (pre post : List (ApEv E V S)) (ev : ApEv E V S) (hev : isRejEv ev = true) :
    apRunFrom st (pre ++ ev :: post) = apRunFrom st (pre ++ [ev]) := by
  have hsplit : pre ++ ev :: post = (pre ++ [ev]) ++ post := by simp
  rw [hsplit, apRunFrom_append]
  have hrej : (apFinal st (pre ++ [ev])).rejected = true := by
    rw [apFinal_append]
    cases ev with
    | rejThis e => exact apStep_rejThis_rejected _ e
    | rejThat e => exact apStep_rejThat_rejected _ e
    | resThis f => simp [isRejEv] at hev
    | resThat v => simp [isRejEv] at hev
  simp [apRunFrom_of_rejected _ hrej]

theorem countRejects_append {E S : Type} (a b : List (Out E S)) :
    countRejects (a ++ b) = countRejects a + countRejects b := by
  induction a with
  | nil => simp [countRejects]
  | cons o rest ih =>
    cases o with
    | reject e => simp [countRejects, ih]; omega
    | resolve s => simp [countRejects, ih]
    | schedCleanup => simp [countRejects, ih]

theorem apRunFrom_rejects_le {E V S : Type} :
    ∀ (tr : List (ApEv E V S)) (st : ApSt E V S),
      countRejects (apRunFrom st tr) ≤ 1 := by
  intro tr
  induction tr with
  | nil => intro st; simp [apRunFrom, countRejects]
  | cons ev rest ih =>
    intro st
    cases h : st.rejected with
    | true => simp [apRunFrom_of_rejected st h, countRejects]
    | false =>
      cases ev with
      | rejThis e =>
        have h1 : apStep st (ApEv.rejThis e) =
            ({ st with rejected := true }, [Out.reject e]) := by
          simp [apStep, h]
        rw [apRunFrom, h1, apRunFrom_of_rejected _ rfl]
        simp [countRejects]
      | rejThat e =>
        have h1 : apStep st (ApEv.rejThat e) =
            ({ st with rejected := true }, [Out.reject e]) := by
          simp [apStep, h]
        rw [apRunFrom, h1, apRunFrom_of_rejected _ rfl]
        simp [countRejects]
      | resThis f =>
        cases hv : st.val with
        | none =>
          have h1 : apStep st (ApEv.resThis f) =
              ({ st with func := some f }, []) := by
            simp [apStep, h, hv]
          rw [apRunFrom, h1]
          simpa using ih _
        | some v =>
          have h1 : apStep st (ApEv.resThis f) =
              ({ st with func := some f },
                [Out.schedCleanup, Out.resolve (f v)]) := by
            simp [apStep, h, hv]
          rw [apRunFrom, h1, countRejects_append]
          simpa [countRejects] using ih _
      | resThat v =>
        cases hf : st.func with
        | none =>
          have h1 : apStep st (ApEv.resThat v) =
              ({ st with val := some v }, []) := by
            simp [apStep, h, hf]
          rw [apRunFrom, h1]
          simpa using ih _
        | some f =>
          have h1 : apStep st (ApEv.resThat v) =
              ({ st with val := some v },
                [Out.schedCleanup, Out.resolve (f v)]) := by
            simp [apStep, h, hf]
          rw [apRunFrom, h1, countRejects_append]
          simpa [countRejects] using ih _

theorem apRunFrom_head_rej {E V S : Type} (e : E) :
    ∀ (tr : List (ApEv E V S)) (st : ApSt E V S), st.rejected = false →
      (settlementsOf (apRunFrom st tr)).head? = some (SettleEv.rej e) →
      apRunFrom st tr = [Out.reject e] := by
  intro tr
  induction tr with
  | nil => intro st _ hh; simp [apRunFrom, settlementsOf] at hh
  | cons ev rest ih =>
    intro st h hh
    cases ev with
    | rejThis e' =>
      have h1 : apStep st (ApEv.rejThis e') =
          ({ st with rejected := true }, [Out.reject e']) := by
        simp [apStep, h]
      rw [apRunFrom, h1, apRunFrom_of_rejected _ rfl] at hh ⊢
      simp [settlementsOf] at hh
      simp [hh]
    | rejThat e' =>
      have h1 : apStep st (ApEv.rejThat e') =
          ({ st with rejected := true }, [Out.reject e']) := by
        simp [apStep, h]
      rw [apRunFrom, h1, apRunFrom_of_rejected _ rfl] at hh ⊢
      simp [settlementsOf] at hh
      simp [hh]
    | resThis f =>
      cases hv : st.val with
      | none =>
        have h1 : apStep st (ApEv.resThis f) =
            ({ st with func := some f }, []) := by
          simp [apStep, h, hv]
        rw [apRunFrom, h1] at hh ⊢
        simp only [List.nil_append] at hh ⊢
        exact ih _ (by simp [h]) hh
      | some v =>
        have h1 : apStep st (ApEv.resThis f) =
            ({ st with func := some f },
              [Out.schedCleanup, Out.resolve (f v)]) := by
          simp [apStep, h, hv]
        rw [apRunFrom, h1] at hh
        simp [settlementsOf] at hh
    | resThat v =>
      cases hf : st.func with
      | none =>
        have h1 : apStep st (ApEv.resThat v) =
            ({ st with val := some v }, []) := by
          simp [apStep, h, hf]
        rw [apRunFrom, h1] at hh ⊢
        simp only [List.nil_append] at hh ⊢
        exact ih _ (by simp [h]) hh
      | some f =>
        have h1 : apStep st (ApEv.resThat v) =
            ({ st with val := some v },
              [Out.schedCleanup, Out.resolve (f v)]) := by
          simp [apStep, h, hf]
        rw [apRunFrom, h1] at hh
        simp [settlementsOf] at hh

theorem concatRunFrom_done {E V : Type} (tr : List (SettleEv E V)) :
    concatRunFrom true tr = [] := by
  induction tr with
  | nil => rfl
  | cons ev rest ih => simp [concatRunFrom, concatStep, ih]

theorem concatRun_cons {E V : Type} (ev : SettleEv E V)
    (rest : List (SettleEv E V)) :
    concatRun (ev :: rest) = [Out.schedCleanup, raceOut ev] := by
  simp [concatRun, concatRunFrom, concatStep, concatRunFrom_done]

theorem ap_crashed {E V S R C R2 C2 : Type} (tf : Task E (V → S) R C)
    (tv : Task E V R2 C2) (h : tf.calls = [] ∧ tf.crashes = true) :
    (tf.ap tv).calls = [] ∧ (tf.ap tv).crashes = true := by
  obtain ⟨h1, h2⟩ := h
  constructor
  · simp [Task.ap, h1, h2, apRun, apRunFrom, settlementsOf]
  · simp [Task.ap, h2]

theorem chainCalls_of {E V : Type} (l : List (SettleEv E V)) :
    chainCalls (fun b => Task.of (E := E) b) l = (l, false) := by
  induction l with
  | nil => rfl
  | cons ev rest ih =>
    cases ev with
    | rej e =>
      rw [show chainCalls (fun b => Task.of (E := E) b) (SettleEv.rej e :: rest) =
            (SettleEv.rej e :: (chainCalls (fun b => Task.of (E := E) b) rest).1,
              (chainCalls (fun b => Task.of (E := E) b) rest).2) from rfl, ih]
    | res v =>
      rw [show chainCalls (fun b => Task.of (E := E) b) (SettleEv.res v :: rest) =
            ([SettleEv.res v] ++ (chainCalls (fun b => Task.of (E := E) b) rest).1,
              (chainCalls (fun b => Task.of (E := E) b) rest).2) from rfl, ih]
      simp

/-- C1: when `this` succeeds with `f` and `that` succeeds with `v`, in either
settlement order, `ap` delivers exactly `resolve (f v)` when the second
success arrives (and nothing after only one success); in particular
`Task.of(x => x + 1).ap(Task.of(41))` resolves to `42`. -/
theorem C1_ap_success_requires_both (E V S : Type) (f : V → S) (v : V) :
    apRun [ApEv.resThis (E := E) f, ApEv.resThat v] =
      [Out.schedCleanup, Out.resolve (f v)] ∧
    apRun [ApEv.resThat (E := E) v, ApEv.resThis f] =
      [Out.schedCleanup, Out.resolve (f v)] ∧
    apRun [ApEv.resThis (E := E) f] = [] ∧
    apRun [ApEv.resThat (E := E) (S := S) v] = [] ∧
    ((Task.of (E := E) (fun x : Nat => x + 1)).ap (Task.of 41)).calls =
      [SettleEv.res 42] :=
  ⟨rfl, rfl, rfl, rfl, rfl⟩

/-- C2: the first failure reported to `ap`'s guards is forwarded to the
output `reject`, and every later outcome from either branch is suppressed
(processing stops changing the output after the first failure); in
particular two synchronously-failing inputs give `reject e1` only, and `e2`
is never delivered. -/
theorem C2_ap_first_failure_wins (E V S : Type) :
    (∀ (pre post : List (ApEv E V S)) (e : E),
        (pre.all fun ev => !isRejEv ev) = true →
        apRun (pre ++ ApEv.rejThis e :: post) = apRun pre ++ [Out.reject e] ∧
        apRun (pre ++ ApEv.rejThat e :: post) = apRun pre ++ [Out.reject e]) ∧
    (∀ e1 e2 : E,
        ((Task.rejected (V := V → S) e1).ap (Task.rejected e2)).calls =
          [SettleEv.rej e1]) := by
  constructor
  · intro pre post e hpre
    have hfin : (apFinal (apInit (E := E) (V := V) (S := S)) pre).rejected = false :=
      apFinal_rejected_of_noRej pre apInit hpre
    constructor
    · rw [apRun, apRunFrom_rej_absorbs apInit pre post (ApEv.rejThis e) rfl,
        apRunFrom_append]
      have hstep : apStep (apFinal (apInit (E := E) (V := V) (S := S)) pre)
          (ApEv.rejThis e) =
          ({ apFinal (apInit (E := E) (V := V) (S := S)) pre with rejected := true },
            [Out.reject e]) := by
        simp [apStep, hfin]
      rw [apRunFrom, hstep]
      simp [apRunFrom, apRun]
    · rw [apRun, apRunFrom_rej_absorbs apInit pre post (ApEv.rejThat e) rfl,
        apRunFrom_append]
      have hstep : apStep (apFinal (apInit (E := E) (V := V) (S := S)) pre)
          (ApEv.rejThat e) =
          ({ apFinal (apInit (E := E) (V := V) (S := S)) pre with rejected := true },
            [Out.reject e]) := by
        simp [apStep, hfin]
      rw [apRunFrom, hstep]
      simp [apRunFrom, apRun]
  · intro e1 e2
    rfl

/-- Witness for C2 at a concrete input: a success arrives first, then the
failure `5`, then a late sibling success; the output is the prior output plus
exactly `reject 5`. -/
theorem C2_witness :
    apRun ([ApEv.resThis (E := Nat) (fun x : Nat => x)] ++
        ApEv.rejThis 5 :: [ApEv.resThat 3]) =
      apRun [ApEv.resThis (E := Nat) (fun x : Nat => x)] ++ [Out.reject 5] :=
  ((C2_ap_first_failure_wins Nat Nat Nat).1
    [ApEv.resThis fun x => x] [ApEv.resThat 3] 5 rfl).1

/-- C3: evaluation of the code at the claim's failing input.  The claim says
`mapN(f, t2..tN)` resolves to `f(a1..aN)` for every N from 2 to 10; the code
satisfies it at N = 2 (`map2` of `Task.of 1` and `Task.of 2` resolves to `3`)
but at N = 3 the fork's success branch references the undefined `par2`, so
`map3` of `Task.of 1`, `Task.of 2`, `Task.of 3` settles on neither channel
and its fork throws. -/
theorem C3_mapN_arity_eval :
    (((Task.of (E := Nat) 1).map3 (fun a b c : Nat => a + b + c)
        (Task.of 2) (Task.of 3)).calls = [] ∧
     ((Task.of (E := Nat) 1).map3 (fun a b c : Nat => a + b + c)
        (Task.of 2) (Task.of 3)).crashes = true) ∧
    ((Task.of (E := Nat) 1).map2 (fun a b : Nat => a + b)
        (Task.of 2)).calls = [SettleEv.res 3] :=
  ⟨⟨rfl, rfl⟩, rfl⟩

/-- C4 counterexample: `ap` does not latch the success side.  With the
well-behaved `Task.of (x => x + 1)` and an ill-behaved input that resolves
with `41` and then also rejects with `7`, the composed fork invokes the
output `resolve` with `42` and then also the output `reject` with `7`: two
settlement calls, on both channels, in one fork execution. -/
theorem C4_counterexample :
    ((Task.of (E := Nat) (fun x : Nat => x + 1)).ap illBehaved).calls =
      [SettleEv.res 42, SettleEv.rej 7] ∧
    ¬ ((Task.of (E := Nat) (fun x : Nat => x + 1)).ap illBehaved).calls.length ≤ 1 :=
  ⟨rfl, by decide⟩

/-- C4 amended: `concat` invokes at most one of its two output continuations,
at most once, per fork execution (the `done` latch), for arbitrary
ill-behaved inputs; `ap` enforces the invariant only on the failure side: it
invokes the output `reject` at most once and suppresses every outcome after
the first failure, but it does not latch the success side (see the
counterexample). -/
theorem C4_amended (E V S : Type) :
    (∀ tr : List (SettleEv E V), (settlementsOf (concatRun tr)).length ≤ 1) ∧
    (∀ tr : List (ApEv E V S), countRejects (apRun tr) ≤ 1) ∧
    (∀ (pre post : List (ApEv E V S)) (e : E),
        apRun (pre ++ ApEv.rejThis e :: post) = apRun (pre ++ [ApEv.rejThis e]) ∧
        apRun (pre ++ ApEv.rejThat e :: post) = apRun (pre ++ [ApEv.rejThat e])) := by
  refine ⟨?_, ?_, ?_⟩
  · intro tr
    cases tr with
    | nil => simp [concatRun, concatRunFrom, settlementsOf]
    | cons ev rest =>
      rw [concatRun_cons]
      cases ev <;> simp [settlementsOf, raceOut]
  · intro tr
    exact apRunFrom_rejects_le tr apInit
  · intro pre post e
    exact ⟨apRunFrom_rej_absorbs apInit pre post (ApEv.rejThis e) rfl,
      apRunFrom_rej_absorbs apInit pre post (ApEv.rejThat e) rfl⟩

/-- C5: `concat` adopts the first settlement from either side, failure or
success, and ignores every later continuation call; a synchronous `"fast"`
raced against the never-settling `empty` resolves to `"fast"`, and of two
synchronous successes the one forked first wins. -/
theorem C5_concat_race (E V : Type) :
    (∀ (ev : SettleEv E V) (rest : List (SettleEv E V)),
        concatRun (ev :: rest) = [Out.schedCleanup, raceOut ev]) ∧
    ((Task.of (E := E) "fast").concat Task.empty).calls =
      [SettleEv.res "fast"] ∧
    (∀ x y : V, ((Task.of (E := E) x).concat (Task.of y)).calls =
      [SettleEv.res x]) :=
  ⟨fun ev rest => concatRun_cons ev rest, rfl, fun _ _ => rfl⟩

/-- C6: every sequential transformer returns a task whose cleanup is the
underlying task's cleanup, unchanged, and whose fork returns exactly the
underlying fork's run-state. -/
theorem C6_sequential_frame (E E' V S G D R C R' C' : Type) :
    (∀ (t : Task E V R C) (f : V → S),
        (t.map f).cleanup = t.cleanup ∧ (t.map f).state = t.state) ∧
    (∀ (t : Task E V R C) (f : V → Task E S R' C'),
        (t.chain f).cleanup = t.cleanup ∧ (t.chain f).state = t.state) ∧
    (∀ (t : Task E V R C) (f : E → Task E' V R' C'),
        (t.orElse f).cleanup = t.cleanup ∧ (t.orElse f).state = t.state) ∧
    (∀ (t : Task E V R C) (f : E → E'),
        (t.rejectedMap f).cleanup = t.cleanup ∧ (t.rejectedMap f).state = t.state) ∧
    (∀ (t : Task E V R C) (f : E → E') (g : V → S),
        (t.bimap f g).cleanup = t.cleanup ∧ (t.bimap f g).state = t.state) ∧
    (∀ t : Task E V R C,
        t.swap.cleanup = t.cleanup ∧ t.swap.state = t.state) ∧
    (∀ (t : Task E V R C) (f : E → G) (g : V → G),
        (t.fold (D := D) f g).cleanup = t.cleanup ∧
        (t.fold (D := D) f g).state = t.state) ∧
    (∀ (t : Task E V R C) (p : CataPattern E V G),
        (t.cata (D := D) p).cleanup = t.cleanup ∧
        (t.cata (D := D) p).state = t.state) := by
  refine ⟨?_, ?_, ?_, ?_, ?_, ?_, ?_, ?_⟩ <;> intros <;> exact ⟨rfl, rfl⟩

/-- C7: when a failure is the first settlement `ap` delivers, the whole fork
execution performs exactly that one `reject` and never schedules
`cleanupBoth`: the run-states of the non-failing side are abandoned without
cleanup. -/
theorem C7_ap_no_cleanup_on_failure (E V S : Type) (tr : List (ApEv E V S))
    (e : E)
    (h : (settlementsOf (apRun tr)).head? = some (SettleEv.rej e)) :
    apRun tr = [Out.reject e] ∧ countSched (apRun tr) = 0 := by
  have h1 : apRunFrom apInit tr = [Out.reject e] :=
    apRunFrom_head_rej e tr apInit rfl h
  refine ⟨h1, ?_⟩
  rw [apRun, h1]
  rfl

/-- Witness for C7 at a concrete input: `that` fails with `7` first; the
output is exactly one `reject 7` and no cleanup is scheduled. -/
theorem C7_witness :
    (settlementsOf (apRun c7Trace)).head? = some (SettleEv.rej 7) ∧
    (apRun c7Trace = [Out.reject 7] ∧ countSched (apRun c7Trace) = 0) :=
  ⟨rfl, C7_ap_no_cleanup_on_failure Nat Nat Nat c7Trace 7 rfl⟩

/-- C8: monad laws.  `Task.of(v).chain(f)` performs the same settlements (and
the same crash behaviour) as `f(v)`, and `t.chain(Task.of)` performs the same
settlements as `t`. -/
theorem C8_monad_laws (E V S R C R' C' : Type) :
    (∀ (v : V) (f : V → Task E S R' C'),
        ((Task.of (E := E) v).chain f).calls = (f v).calls ∧
        ((Task.of (E := E) v).chain f).crashes = (f v).crashes) ∧
    (∀ t : Task E V R C,
        (t.chain fun b => Task.of b).calls = t.calls ∧
        (t.chain fun b => Task.of b).crashes = t.crashes) := by
  constructor
  · intro v f
    constructor
    · show (chainCalls f [SettleEv.res v]).1 = (f v).calls
      cases h : (f v).crashes <;> simp [chainCalls, h]
    · show ((chainCalls f [SettleEv.res v]).2 || false) = (f v).crashes
      cases h : (f v).crashes <;> simp [chainCalls, h]
  · intro t
    constructor
    · show (chainCalls (fun b => Task.of b) t.calls).1 = t.calls
      rw [chainCalls_of]
    · show ((chainCalls (fun b => Task.of b) t.calls).2 || t.crashes) = t.crashes
      rw [chainCalls_of]
      simp

/-- C9: for each N from 3 to 10, the composed fork of `mapN` applied to a
succeeding `t1` evaluates the undefined identifier `par2` (never the
arity-correct `parN` it defines), so it throws before invoking either output
continuation: no settlement is ever delivered, whatever `t2..tN` are. -/
theorem C9_mapN_undefined_par2 (E : Type) :
    (∀ (A1 A2 A3 S R2 C2 R3 C3 : Type) (a1 : A1) (f : A1 → A2 → A3 → S)
        (t2 : Task E A2 R2 C2) (t3 : Task E A3 R3 C3),
        ((Task.of (E := E) a1).map3 f t2 t3).calls = [] ∧
        ((Task.of (E := E) a1).map3 f t2 t3).crashes = true) ∧
    (∀ (A1 A2 A3 A4 S R2 C2 R3 C3 R4 C4 : Type) (a1 : A1)
        (f : A1 → A2 → A3 → A4 → S) (t2 : Task E A2 R2 C2)
        (t3 : Task E A3 R3 C3) (t4 : Task E A4 R4 C4),
        ((Task.of (E := E) a1).map4 f t2 t3 t4).calls = [] ∧
        ((Task.of (E := E) a1).map4 f t2 t3 t4).crashes = true) ∧
    (∀ (A1 A2 A3 A4 A5 S R2 C2 R3 C3 R4 C4 R5 C5 : Type) (a1 : A1)
        (f : A1 → A2 → A3 → A4 → A5 → S) (t2 : Task E A2 R2 C2)
        (t3 : Task E A3 R3 C3) (t4 : Task E A4 R4 C4) (t5 : Task E A5 R5 C5),
        ((Task.of (E := E) a1).map5 f t2 t3 t4 t5).calls = [] ∧
        ((Task.of (E := E) a1).map5 f t2 t3 t4 t5).crashes = true) ∧
    (∀ (A1 A2 A3 A4 A5 A6 S R2 C2 R3 C3 R4 C4 R5 C5 R6 C6 : Type) (a1 : A1)
        (f : A1 → A2 → A3 → A4 → A5 → A6 → S) (t2 : Task E A2 R2 C2)
        (t3 : Task E A3 R3 C3) (t4 : Task E A4 R4 C4) (t5 : Task E A5 R5 C5)
        (t6 : Task E A6 R6 C6),
        ((Task.of (E := E) a1).map6 f t2 t3 t4 t5 t6).calls = [] ∧
        ((Task.of (E := E) a1).map6 f t2 t3 t4 t5 t6).crashes = true) ∧
    (∀ (A1 A2 A3 A4 A5 A6 A7 S R2 C2 R3 C3 R4 C4 R5 C5 R6 C6 R7 C7 : Type)
        (a1 : A1) (f : A1 → A2 → A3 → A4 → A5 → A6 → A7 → S)
        (t2 : Task E A2 R2 C2) (t3 : Task E A3 R3 C3) (t4 : Task E A4 R4 C4)
        (t5 : Task E A5 R5 C5) (t6 : Task E A6 R6 C6) (t7 : Task E A7 R7 C7),
        ((Task.of (E := E) a1).map7 f t2 t3 t4 t5 t6 t7).calls = [] ∧
        ((Task.of (E := E) a1).map7 f t2 t3 t4 t5 t6 t7).crashes = true) ∧
    (∀ (A1 A2 A3 A4 A5 A6 A7 A8 S R2 C2 R3 C3 R4 C4 R5 C5 R6 C6 R7 C7 R8 C8 : Type)
        (a1 : A1) (f : A1 → A2 → A3 → A4 → A5 → A6 → A7 → A8 → S)
        (t2 : Task E A2 R2 C2) (t3 : Task E A3 R3 C3) (t4 : Task E A4 R4 C4)
        (t5 : Task E A5 R5 C5) (t6 : Task E A6 R6 C6) (t7 : Task E A7 R7 C7)
        (t8 : Task E A8 R8 C8),
        ((Task.of (E := E) a1).map8 f t2 t3 t4 t5 t6 t7 t8).calls = [] ∧
        ((Task.of (E := E) a1).map8 f t2 t3 t4 t5 t6 t7 t8).crashes = true) ∧
    (∀ (A1 A2 A3 A4 A5 A6 A7 A8 A9 S R2 C2 R3 C3 R4 C4 R5 C5 R6 C6 R7 C7 R8 C8 R9 C9 : Type)
        (a1 : A1) (f : A1 → A2 → A3 → A4 → A5 → A6 → A7 → A8 → A9 → S)
        (t2 : Task E A2 R2 C2) (t3 : Task E A3 R3 C3) (t4 : Task E A4 R4 C4)
        (t5 : Task E A5 R5 C5) (t6 : Task E A6 R6 C6) (t7 : Task E A7 R7 C7)
        (t8 : Task E A8 R8 C8) (t9 : Task E A9 R9 C9),
        ((Task.of (E := E) a1).map9 f t2 t3 t4 t5 t6 t7 t8 t9).calls = [] ∧
        ((Task.of (E := E) a1).map9 f t2 t3 t4 t5 t6 t7 t8 t9).crashes = true) ∧
    (∀ (A1 A2 A3 A4 A5 A6 A7 A8 A9 A10 S R2 C2 R3 C3 R4 C4 R5 C5 R6 C6 R7 C7 R8 C8 R9 C9 R10 C10 : Type)
        (a1 : A1) (f : A1 → A2 → A3 → A4 → A5 → A6 → A7 → A8 → A9 → A10 → S)
        (t2 : Task E A2 R2 C2) (t3 : Task E A3 R3 C3) (t4 : Task E A4 R4 C4)
        (t5 : Task E A5 R5 C5) (t6 : Task E A6 R6 C6) (t7 : Task E A7 R7 C7)
        (t8 : Task E A8 R8 C8) (t9 : Task E A9 R9 C9) (t10 : Task E A10 R10 C10),
        ((Task.of (E := E) a1).map10 f t2 t3 t4 t5 t6 t7 t8 t9 t10).calls = [] ∧
        ((Task.of (E := E) a1).map10 f t2 t3 t4 t5 t6 t7 t8 t9 t10).crashes = true) := by
  refine ⟨?_, ?_, ?_, ?_, ?_, ?_, ?_, ?_⟩ <;> intros
  · exact ap_crashed _ _ (ap_crashed _ _ ⟨rfl, rfl⟩)
  · exact ap_crashed _ _ (ap_crashed _ _ (ap_crashed _ _ ⟨rfl, rfl⟩))
  · exact ap_crashed _ _ (ap_crashed _ _ (ap_crashed _ _ (ap_crashed _ _ ⟨rfl, rfl⟩)))
  · exact ap_crashed _ _ (ap_crashed _ _ (ap_crashed _ _ (ap_crashed _ _
      (ap_crashed _ _ ⟨rfl, rfl⟩))))
  · exact ap_crashed _ _ (ap_crashed _ _ (ap_crashed _ _ (ap_crashed _ _
      (ap_crashed _ _ (ap_crashed _ _ ⟨rfl, rfl⟩)))))
  · exact ap_crashed _ _ (ap_crashed _ _ (ap_crashed _ _ (ap_crashed _ _
      (ap_crashed _ _ (ap_crashed _ _ (ap_crashed _ _ ⟨rfl, rfl⟩))))))
  · exact ap_crashed _ _ (ap_crashed _ _ (ap_crashed _ _ (ap_crashed _ _
      (ap_crashed _ _ (ap_crashed _ _ (ap_crashed _ _ (ap_crashed _ _ ⟨rfl, rfl⟩)))))))
  · exact ap_crashed _ _ (ap_crashed _ _ (ap_crashed _ _ (ap_crashed _ _
      (ap_crashed _ _ (ap_crashed _ _ (ap_crashed _ _ (ap_crashed _ _
        (ap_crashed _ _ ⟨rfl, rfl⟩))))))))

/-- C10: `concat`'s `done` latch guards cleanup scheduling: for any sequence
of settlement callbacks from either input, `cleanupBoth` is scheduled at most
once per fork invocation. -/
theorem C10_concat_cleanup_once (E V : Type) (tr : List (SettleEv E V)) :
    countSched (concatRun tr) ≤ 1 := by
  cases tr with
  | nil => simp [concatRun, concatRunFrom, countSched]
  | cons ev rest =>
    rw [concatRun_cons]
    cases ev <;> simp [countSched, raceOut]

end DataTask
